import Mathlib

/-
Verification of the curve-segmentation core of the oven_logging repository.

The live segmentation algorithm is ThermalProfileLoader._extract_all_baking_curves
(src/src/data/loader.py, lines 472-654): a cursor loop that repeatedly finds a
curve start (PredictionState transition, rapid rise from below 40 C, or a
sustained rise above a cool 5-sample window), scans the remaining suffix for the
peak, picks a search anchor (first pre-peak sample above 70 C), then scans for an
end by three conditions (cool-down to room temperature, stable plateau, major
drop from peak) with backward walks, validates duration >= 60 samples and peak
>= 80 C, and resumes at end + 1.

Temperatures and timestamps are embedded as rationals (the Python code uses
floats; all inputs used in witnesses keep wide margins so the comparisons agree).
The pandas sample standard deviation test (std < 2, ddof = 1) is embedded as the
equivalent exact comparison on the sample variance (var < 4).
-/

set_option maxRecDepth 10000

/-- One probe recording, as seen by _extract_all_baking_curves: the resolved core
temperature series (CoreTemperature column), whether a PredictionState column is
present, and the per-sample flag that PredictionState equals the string
"Probe Not Inserted". -/
structure ProbeData where
  core : List ℚ
  hasPS : Bool := false
  ps : List Bool := []
deriving DecidableEq

/-- Number of samples, len(df). -/
def dlen (df : ProbeData) : ℕ := df.core.length

/-- Core temperature at sample j: df.iloc[j][core_col]. -/
def tempAt (df : ProbeData) (j : ℕ) : ℚ := df.core.getD j 0

/-- Whether PredictionState at sample j is "Probe Not Inserted". -/
def psNI (df : ProbeData) (j : ℕ) : Bool := df.ps.getD j false

/-- Sum of f over the n indices a, a+1, ..., a+n-1. -/
def sumIdx (f : ℕ → ℚ) : ℕ → ℕ → ℚ
  | _, 0 => 0
  | a, n+1 => f a + sumIdx f (a+1) n

/-- Maximum of f over the n+1 indices a, a+1, ..., a+n. -/
def maxFrom (f : ℕ → ℚ) : ℕ → ℕ → ℚ
  | a, 0 => f a
  | a, n+1 => max (maxFrom f a n) (f (a+n+1))

/-- Maximum of the core series over the inclusive index range [a, b]. -/
def maxOver (df : ProbeData) (a b : ℕ) : ℚ := maxFrom (tempAt df) a (b - a)

/-- Centered rolling mean of window 5, edges kept as the raw value:
df[core_col].rolling(window=5, center=True).mean().fillna(df[core_col])
(loader.py line 498). -/
def smoothAt (df : ProbeData) (j : ℕ) : ℚ :=
  if 2 ≤ j ∧ j + 2 < dlen df then sumIdx (tempAt df) (j-2) 5 / 5 else tempAt df j

/-- First index j, scanning n positions upward from lo, with P j; models the
Python pattern "for j in range(lo, lo+n): if P(j): break". -/
def scanFirst (P : ℕ → Bool) : ℕ → ℕ → Option ℕ
  | 0, _ => none
  | n+1, lo => if P lo then some lo else scanFirst P n (lo+1)

/-- First index k, scanning n positions downward from hi, with P k; models the
Python pattern "for k in range(hi, hi-n, -1): if P(k): break". -/
def scanDown (P : ℕ → Bool) : ℕ → ℕ → Option ℕ
  | 0, _ => none
  | n+1, hi => if P hi then some hi else scanDown P n (hi-1)

/-- Start rule "rapid temperature rise from low temperature"
(loader.py lines 524-526): current_temp < 40 and next_temp - current_temp > 5. -/
def riseStart (df : ProbeData) (j : ℕ) : Bool :=
  decide (tempAt df j < 40) && decide (tempAt df (j+1) - tempAt df j > 5)

/-- Start rule "sustained rise after room temperature period"
(loader.py lines 529-533): j >= 5, the mean of the preceding 5 samples is below
ROOM_TEMP_MAX = 35, and the current sample exceeds that mean by more than 3. -/
def sustainedStart (df : ProbeData) (j : ℕ) : Bool :=
  decide (5 ≤ j) && decide (sumIdx (tempAt df) (j-5) 5 / 5 < 35)
    && decide (tempAt df j > sumIdx (tempAt df) (j-5) 5 / 5 + 3)

/-- Either rule of start-detection Method 2 fires at scan position j. -/
def startHit (df : ProbeData) (j : ℕ) : Bool :=
  riseStart df j || sustainedStart df j

/-- Find the start of the next curve from cursor i (loader.py lines 507-534):
Method 1 scans for a PredictionState transition out of "Probe Not Inserted"
(start = j+1), then Method 2 scans for a temperature-based start
(start = j for the rapid-rise rule, start = j-5 for the sustained-rise rule). -/
def findStart (df : ProbeData) (i : ℕ) : Option ℕ :=
  let m1 : Option ℕ :=
    if df.hasPS then
      (scanFirst (fun j => psNI df j && !psNI df (j+1)) (dlen df - 1 - i) i).map (· + 1)
    else none
  match m1 with
  | some s => some s
  | none =>
      (scanFirst (startHit df) (dlen df - 1 - i) i).map
        (fun j => if riseStart df j then j else j - 5)

/-- Peak-tracking loop (loader.py lines 540-546): scan n positions from j,
carrying the running argmax pi and running maximum pt, updating on strict
increase. -/
def peakGo (df : ProbeData) : ℕ → ℕ → ℕ → ℚ → ℕ × ℚ
  | 0, _, pi, pt => (pi, pt)
  | n+1, j, pi, pt =>
      if tempAt df j > pt then peakGo df n (j+1) j (tempAt df j)
      else peakGo df n (j+1) pi pt

/-- Peak of the curve starting at s: the first argmax and the maximum of the
core series over [s, len), as computed by the loop at loader.py lines 540-546. -/
def findPeak (df : ProbeData) (s : ℕ) : ℕ × ℚ :=
  peakGo df (dlen df - (s+1)) (s+1) s (tempAt df s)

/-- Anchor for the end search (loader.py lines 551-556): the first index in
[s, p) whose temperature exceeds 70 C, defaulting to the peak index p. -/
def searchStart (df : ProbeData) (s p : ℕ) : ℕ :=
  (scanFirst (fun j => decide (tempAt df j > 70)) (p - s) s).getD p

/-- End condition 1, rapid cooling to room temperature (loader.py lines 562-571):
at least 20 samples past the anchor, temperature below ROOM_TEMP_MAX = 35, drop
from peak above 50, and the next 5 samples (which must exist) stay below 40. -/
def endCond1 (df : ProbeData) (pt : ℚ) (ss j : ℕ) : Bool :=
  decide (ss + 20 ≤ j) && decide (tempAt df j < 35) && decide (pt - tempAt df j > 50)
    && decide (j + 5 < dlen df) && decide (maxFrom (tempAt df) j 4 < 40)

/-- Mean of the 21 smoothed samples at indices j-20, ..., j (loader.py line 579). -/
def plateauMean (df : ProbeData) (j : ℕ) : ℚ := sumIdx (smoothAt df) (j-20) 21 / 21

/-- Sample variance (ddof = 1) of the same 21 smoothed samples; the source
compares the sample standard deviation with 2, equivalently the variance with 4. -/
def plateauVar (df : ProbeData) (j : ℕ) : ℚ :=
  sumIdx (fun k => (smoothAt df k - plateauMean df j)^2) (j-20) 21 / 20

/-- End condition 2, extended stable period at room temperature
(loader.py lines 574-582): at least 60 samples past the anchor, j >= 20, and the
trailing 21-sample smoothed window is stable ( std < 2 ) with mean in (18, 35). -/
def endCond2 (df : ProbeData) (ss j : ℕ) : Bool :=
  decide (ss + 60 ≤ j) && decide (20 ≤ j) && decide (plateauVar df j < 4)
    && decide (18 < plateauMean df j) && decide (plateauMean df j < 35)

/-- End condition 3, major temperature drop from peak (loader.py lines 592-597):
drop from peak above 40, more than 10 samples past the peak, and the next 3
samples (which must exist) stay below the current temperature plus 5. -/
def endCond3 (df : ProbeData) (p : ℕ) (pt : ℚ) (j : ℕ) : Bool :=
  decide (pt - tempAt df j > 40) && decide (p + 10 < j) && decide (j + 3 < dlen df)
    && decide (maxFrom (tempAt df) j 2 < tempAt df j + 5)

/-- End decision at scan position j (loader.py lines 559-607): the three end
conditions are tried in order; conditions 2 and 3 walk backward to place the
recorded end before the detection point, with the fallbacks of the source. -/
def endAt (df : ProbeData) (p : ℕ) (pt : ℚ) (ss j : ℕ) : Option ℕ :=
  if endCond1 df pt ss j then some j
  else if endCond2 df ss j then
    some (match scanDown (fun k => decide (tempAt df k > plateauMean df j + 20))
            (j - 20 - ss) (j - 20) with
          | some k => k + 1
          | none => j - 20)
  else if endCond3 df p pt j then
    some (match scanDown
            (fun k => decide (1 ≤ k) && decide (tempAt df (k-1) - tempAt df k > 10))
            (j - p) j with
          | some k => k - 1
          | none => j)
  else none

/-- End-search loop: scan n positions upward from j for the first position where
some end condition fires, returning the (possibly walked-back) end index. -/
def endGo (df : ProbeData) (p : ℕ) (pt : ℚ) (ss : ℕ) : ℕ → ℕ → Option ℕ
  | 0, _ => none
  | n+1, j =>
      match endAt df p pt ss j with
      | some e => some e
      | none => endGo df p pt ss n (j+1)

/-- Full end search for a curve with anchor ss (loader.py lines 559-607): scan
positions ss+1, ..., len-1. -/
def endScan (df : ProbeData) (p : ℕ) (pt : ℚ) (ss : ℕ) : Option ℕ :=
  endGo df p pt ss (dlen df - (ss+1)) (ss+1)

/-- A detected curve segment: start_idx and end_idx as stored in curve_info
(loader.py lines 626-636), and the internal peak variables peak_idx / peak_temp
(peak_temp is emitted as max_temp; detect_curve_boundaries_v2 emits peak_idx). -/
structure Curve where
  startIdx : ℕ
  endIdx : ℕ
  peakIdx : ℕ
  peakTemp : ℚ
deriving DecidableEq

/-- Result of one iteration of the while loop of _extract_all_baking_curves:
either no further start was found (the loop breaks), or a candidate curve was
closed, with the flag of whether validation retained it, and the next cursor. -/
inductive StepResult where
  | stop : StepResult
  | next : Curve → Bool → ℕ → StepResult
deriving DecidableEq

/-- One iteration of the while loop of _extract_all_baking_curves
(loader.py lines 506-647): find a start, scan the peak, pick the end-search
anchor, search for an end (defaulting to the last sample), validate the
candidate with MIN_CURVE_DURATION = 60 and MIN_PEAK_TEMP = 80, and move the
cursor to end + 1. -/
def scanStep (df : ProbeData) (i : ℕ) : StepResult :=
  match findStart df i with
  | none => .stop
  | some s =>
      let pp := findPeak df s
      let ss := searchStart df s pp.1
      let e := (endScan df pp.1 pp.2 ss).getD (dlen df - 1)
      .next ⟨s, e, pp.1, pp.2⟩
        (decide (60 ≤ (e : ℤ) - (s : ℤ) + 1) && decide ((80:ℚ) ≤ pp.2)) (e + 1)

/-- The while loop of _extract_all_baking_curves, with explicit fuel: none marks
fuel exhaustion (the source loop has no fuel and would still be running),
some l is the list of retained curves in emission order. -/
def extractLoop (df : ProbeData) : ℕ → ℕ → Option (List Curve)
  | 0, _ => none
  | fuel+1, i =>
      if i < dlen df then
        match scanStep df i with
        | .stop => some []
        | .next c ok i2 =>
            (extractLoop df fuel i2).map (fun rest => if ok then c :: rest else rest)
      else some []

/-- Full extraction, _extract_all_baking_curves(df), with fuel len+1 (enough
whenever the cursor advances at every iteration). -/
def extractAll (df : ProbeData) : Option (List Curve) :=
  extractLoop df (dlen df + 1) 0

/-- Timestamp re-basing of the Curve Normalizer (loader.py line 619):
curve_data.Timestamp minus its first value. -/
def normalizeTs (ts : List ℚ) : List ℚ := ts.map (fun t => t - ts.headD 0)

/-- The Curve Registry state held by ThermalProfileLoader: the list of curve
data frames (all_curves), current_curve_index, and the currently selected data. -/
structure Registry where
  curves : List (List ℚ)
  currentIndex : ℕ
  data : List ℚ
deriving DecidableEq

/-- set_current_curve (loader.py lines 674-679): if 0 <= curve_index < count,
update current_curve_index and self.data; always return self.data. The index is
an integer, as in Python. -/
def setCurrentCurve (r : Registry) (idx : ℤ) : Registry × List ℚ :=
  if 0 ≤ idx ∧ idx < (r.curves.length : ℤ) then
    let d := r.curves.getD idx.toNat []
    (⟨r.curves, idx.toNat, d⟩, d)
  else (r, r.data)

/-- Maximum observed temperature of one channel series, df[sensor].max(). -/
def seriesMax : List ℚ → ℚ
  | [] => 0
  | h :: t => t.foldl max h

/-- Sort channels ascending by maximum observed temperature
(loader.py line 279: sorted(sensor_stats.items(), key=max)). -/
def sortByMax (cs : List (List ℚ)) : List (List ℚ) :=
  cs.mergeSort (fun a b => decide (seriesMax a ≤ seriesMax b))

/-- Role assignment produced by the dynamic classifier: the channel groups
backing core, surface and ambient (each group is averaged per sample). -/
structure RoleAssignment where
  core : List (List ℚ)
  surface : List (List ℚ)
  ambient : List (List ℚ)
deriving DecidableEq

/-- The fallback classifier _classify_sensors_dynamically
(loader.py lines 277-301) on the list of available channel series: with at
least 3 channels, sort by maximum ascending; the 2 lowest-max channels are
core, the 2 highest-max are ambient, the middle ones are surface (borrowing
positions 2 and 3 when fewer than 2 remain). The under-3-channels warning
path is modeled as none. -/
def classifySensors (cs : List (List ℚ)) : Option RoleAssignment :=
  if 3 ≤ cs.length then
    some ⟨(sortByMax cs).take 2,
      (if (((sortByMax cs).drop 2).take (cs.length - 4)).length < 2 then
        ((sortByMax cs).drop 2).take 2
      else ((sortByMax cs).drop 2).take (cs.length - 4)),
      (sortByMax cs).drop (cs.length - 2)⟩
  else none

/-- Per-sample mean of a group of channel series, df[sensors].mean(axis=1)
(loader.py lines 299-301). -/
def rowMean (ls : List (List ℚ)) (k : ℕ) : ℚ :=
  (ls.map (fun l => l.getD k 0)).sum / ls.length

/-- The core temperature series produced by the fallback classifier:
the per-sample mean of the channels assigned to the core role. -/
def coreSeriesOf (ra : RoleAssignment) (k : ℕ) : ℚ := rowMean ra.core k

/-- Concrete recording exhibiting non-termination of the scan: the candidate
found from cursor 6 is closed with end_idx = start_idx = 5, so the cursor
returns to 6 forever. -/
def df20 : ProbeData :=
  ⟨List.replicate 5 100 ++ [44,25,30,35,40,40,31,22,13,4] ++ List.replicate 5 3, false, []⟩

/-- Concrete recording with two retained curves where the first curve ends at
index 60 while the global peak (95) sits at index 66, inside the second curve. -/
def df126 : ProbeData :=
  ⟨[35] ++ List.replicate 59 90 ++ List.replicate 6 20 ++ List.replicate 60 95, false, []⟩

/-- Concrete recording with two retained curves where the sustained-rise start
rule backtracks 5 samples, making the second curve start exactly at the first
curve's end index (60). -/
def df127 : ProbeData :=
  ⟨[35] ++ List.replicate 29 90 ++ [92] ++ List.replicate 29 90 ++ List.replicate 5 20
    ++ [24, 28] ++ List.replicate 60 90, false, []⟩

/-- Concrete three-sample recording whose rapid-rise rule fires at index 0. -/
def dfRise : ProbeData := ⟨[20, 30, 30], false, []⟩

/-- Concrete registry with three curve data frames. -/
def regW : Registry := ⟨[[0, 5], [0, 7], [0, 9]], 0, [0, 5]⟩

/-- Concrete 20-sample recording whose core temperature never exceeds 40 C and
on which the scan nevertheless diverges: the sustained-rise start at j = 9
backtracks to start 4, the major-drop backward walk closes the candidate at
end 5, it is discarded, and the cursor returns to 6 forever. -/
def dfLow : ProbeData :=
  ⟨[40,40,40,40,40,40,25,30,35,40,40,31,22,13,4,4,-5,-5,-5,-5], false, []⟩

theorem scanFirst_eq_some {P : ℕ → Bool} :
    ∀ {n lo j : ℕ}, scanFirst P n lo = some j →
      lo ≤ j ∧ j < lo + n ∧ P j = true := by
  intro n
  induction n with
  | zero => intro lo j h; simp [scanFirst] at h
  | succ n ih =>
    intro lo j h
    rw [scanFirst] at h
    by_cases hp : P lo = true
    · rw [if_pos hp] at h
      cases h
      exact ⟨le_refl _, by omega, hp⟩
    · rw [if_neg hp] at h
      obtain ⟨h1, h2, h3⟩ := ih h
      exact ⟨by omega, by omega, h3⟩

theorem scanFirst_first_match {P : ℕ → Bool} :
    ∀ {n lo j : ℕ}, lo ≤ j → j < lo + n → P j = true →
      (∀ k, lo ≤ k → k < j → P k = false) → scanFirst P n lo = some j := by
  intro n
  induction n with
  | zero => intro lo j h1 h2; omega
  | succ n ih =>
    intro lo j h1 h2 h3 h4
    rw [scanFirst]
    rcases Nat.eq_or_lt_of_le h1 with heq | hlt
    · subst heq; rw [if_pos h3]
    · rw [if_neg (by simp [h4 lo (le_refl lo) hlt])]
      exact ih hlt (by omega) h3 (fun k hk1 hk2 => h4 k (by omega) hk2)

theorem scanDown_eq_some {P : ℕ → Bool} :
    ∀ {n hi k : ℕ}, scanDown P n hi = some k →
      k ≤ hi ∧ hi < k + n ∧ P k = true := by
  intro n
  induction n with
  | zero => intro hi k h; simp [scanDown] at h
  | succ n ih =>
    intro hi k h
    rw [scanDown] at h
    by_cases hp : P hi = true
    · rw [if_pos hp] at h
      cases h
      exact ⟨le_refl _, by omega, hp⟩
    · rw [if_neg hp] at h
      obtain ⟨h1, h2, h3⟩ := ih h
      exact ⟨by omega, by omega, h3⟩

theorem maxOver_succ (df : ProbeData) {s j : ℕ} (h : s < j) :
    maxOver df s j = max (maxOver df s (j-1)) (tempAt df j) := by
  unfold maxOver
  have h1 : j - s = (j - 1 - s) + 1 := by omega
  rw [h1, maxFrom]
  have h2 : s + (j - 1 - s) + 1 = j := by omega
  rw [h2]

theorem peakGo_spec (df : ProbeData) (s : ℕ) :
    ∀ n j pi pt, s ≤ pi → pi < dlen df → pt = tempAt df pi → s < j →
      j + n ≤ dlen df →
      s ≤ (peakGo df n j pi pt).1 ∧ (peakGo df n j pi pt).1 < dlen df ∧
        (peakGo df n j pi pt).2 = tempAt df (peakGo df n j pi pt).1 := by
  intro n
  induction n with
  | zero =>
    intro j pi pt h1 h2 h3 _ _
    exact ⟨h1, h2, h3⟩
  | succ n ih =>
    intro j pi pt h1 h2 h3 h4 h5
    rw [peakGo]
    by_cases hc : tempAt df j > pt
    · rw [if_pos hc]
      exact ih (j+1) j (tempAt df j) (by omega) (by omega) rfl (by omega) (by omega)
    · rw [if_neg hc]
      exact ih (j+1) pi pt h1 h2 h3 (by omega) (by omega)

theorem peakGo_max (df : ProbeData) (s : ℕ) :
    ∀ n j pi pt, s < j → pt = maxOver df s (j-1) → j + n = dlen df →
      (peakGo df n j pi pt).2 = maxOver df s (dlen df - 1) := by
  intro n
  induction n with
  | zero =>
    intro j pi pt h1 h2 h3
    rw [peakGo, h2]
    have : j - 1 = dlen df - 1 := by omega
    rw [this]
  | succ n ih =>
    intro j pi pt h1 h2 h3
    rw [peakGo]
    have hrec : maxOver df s j = max (maxOver df s (j-1)) (tempAt df j) :=
      maxOver_succ df h1
    by_cases hc : tempAt df j > pt
    · rw [if_pos hc]
      refine ih (j+1) j (tempAt df j) (by omega) ?_ (by omega)
      have : j + 1 - 1 = j := by omega
      rw [this, hrec, ← h2]
      exact (max_eq_right (le_of_lt hc)).symm
    · rw [if_neg hc]
      refine ih (j+1) pi pt (by omega) ?_ (by omega)
      have : j + 1 - 1 = j := by omega
      rw [this, hrec, ← h2]
      exact (max_eq_left (not_lt.mp hc)).symm

theorem findPeak_spec (df : ProbeData) {s : ℕ} (hs : s < dlen df) :
    s ≤ (findPeak df s).1 ∧ (findPeak df s).1 < dlen df ∧
      (findPeak df s).2 = tempAt df (findPeak df s).1 ∧
      (findPeak df s).2 = maxOver df s (dlen df - 1) := by
  have h1 := peakGo_spec df s (dlen df - (s+1)) (s+1) s (tempAt df s)
    (le_refl s) hs rfl (by omega) (by omega)
  have h2 := peakGo_max df s (dlen df - (s+1)) (s+1) s (tempAt df s)
    (by omega) (by simp [maxOver, maxFrom]) (by omega)
  exact ⟨h1.1, h1.2.1, h1.2.2, h2⟩

theorem searchStart_spec (df : ProbeData) {s p : ℕ} (hsp : s ≤ p) :
    (s ≤ searchStart df s p ∧ searchStart df s p ≤ p) ∧
      (searchStart df s p = p ∨
        (searchStart df s p < p ∧ 70 < tempAt df (searchStart df s p))) := by
  unfold searchStart
  cases hx : scanFirst (fun j => decide (tempAt df j > 70)) (p - s) s with
  | none => simp [hsp]
  | some f =>
    obtain ⟨h1, h2, h3⟩ := scanFirst_eq_some hx
    simp only [Option.getD_some]
    refine ⟨⟨h1, by omega⟩, Or.inr ⟨by omega, by simpa using h3⟩⟩

theorem endAt_ge (df : ProbeData) {p : ℕ} {pt : ℚ} {ss j e : ℕ}
    (hj : ss + 1 ≤ j) (hp : ss ≤ p) (h : endAt df p pt ss j = some e) : ss ≤ e := by
  unfold endAt at h
  by_cases h1 : endCond1 df pt ss j = true
  · rw [if_pos h1] at h
    cases h
    omega
  rw [if_neg h1] at h
  by_cases h2 : endCond2 df ss j = true
  · rw [if_pos h2] at h
    have hj60 : ss + 60 ≤ j := by
      have := h2
      unfold endCond2 at this
      simp only [Bool.and_eq_true, decide_eq_true_eq] at this
      exact this.1.1.1.1
    cases hw : scanDown (fun k => decide (tempAt df k > plateauMean df j + 20))
        (j - 20 - ss) (j - 20) with
    | none =>
      rw [hw] at h
      cases h
      show ss ≤ j - 20
      omega
    | some k =>
      obtain ⟨hk1, hk2, _⟩ := scanDown_eq_some hw
      rw [hw] at h
      cases h
      show ss ≤ k + 1
      omega
  rw [if_neg h2] at h
  by_cases h3 : endCond3 df p pt j = true
  · rw [if_pos h3] at h
    have hj10 : p + 10 < j := by
      have := h3
      unfold endCond3 at this
      simp only [Bool.and_eq_true, decide_eq_true_eq] at this
      exact this.1.1.2
    cases hw : scanDown
        (fun k => decide (1 ≤ k) && decide (tempAt df (k-1) - tempAt df k > 10))
        (j - p) j with
    | none =>
      rw [hw] at h
      cases h
      show ss ≤ j
      omega
    | some k =>
      obtain ⟨hk1, hk2, _⟩ := scanDown_eq_some hw
      rw [hw] at h
      cases h
      show ss ≤ k - 1
      omega
  rw [if_neg h3] at h
  cases h

theorem endGo_ge (df : ProbeData) {p : ℕ} {pt : ℚ} {ss : ℕ} (hp : ss ≤ p) :
    ∀ n j e, ss + 1 ≤ j → endGo df p pt ss n j = some e → ss ≤ e := by
  intro n
  induction n with
  | zero => intro j e _ h; simp [endGo] at h
  | succ n ih =>
    intro j e hj h
    rw [endGo] at h
    cases hx : endAt df p pt ss j with
    | some e0 =>
      rw [hx] at h
      cases h
      exact endAt_ge df hj hp hx
    | none =>
      rw [hx] at h
      exact ih (j+1) e (by omega) h

theorem endScan_ge (df : ProbeData) {p : ℕ} {pt : ℚ} {ss e : ℕ} (hp : ss ≤ p)
    (h : endScan df p pt ss = some e) : ss ≤ e :=
  endGo_ge df hp (dlen df - (ss+1)) (ss+1) e (le_refl _) h

theorem findStart_bounds (df : ProbeData) {i s : ℕ}
    (h : findStart df i = some s) : i ≤ s + 5 ∧ s < dlen df := by
  unfold findStart at h
  simp only [] at h
  by_cases hps : df.hasPS = true
  · rw [if_pos hps] at h
    cases hx : scanFirst (fun j => psNI df j && !psNI df (j+1)) (dlen df - 1 - i) i with
    | some j =>
      obtain ⟨h1, h2, _⟩ := scanFirst_eq_some hx
      rw [hx] at h
      simp only [Option.map_some'] at h
      cases h
      omega
    | none =>
      rw [hx] at h
      simp only [Option.map_none'] at h
      cases hy : scanFirst (startHit df) (dlen df - 1 - i) i with
      | none => rw [hy] at h; cases h
      | some j =>
        obtain ⟨h1, h2, _⟩ := scanFirst_eq_some hy
        rw [hy] at h
        simp only [Option.map_some'] at h
        by_cases hr : riseStart df j = true
        · rw [if_pos hr] at h
          cases h
          omega
        · rw [if_neg hr] at h
          cases h
          omega
  · rw [if_neg hps] at h
    cases hy : scanFirst (startHit df) (dlen df - 1 - i) i with
    | none => rw [hy] at h; cases h
    | some j =>
      obtain ⟨h1, h2, _⟩ := scanFirst_eq_some hy
      rw [hy] at h
      simp only [Option.map_some'] at h
      by_cases hr : riseStart df j = true
      · rw [if_pos hr] at h
        cases h
        omega
      · rw [if_neg hr] at h
        cases h
        omega

theorem scanStep_spec (df : ProbeData) {i : ℕ} {c : Curve} {ok : Bool} {i2 : ℕ}
    (h : scanStep df i = StepResult.next c ok i2) :
    i ≤ c.startIdx + 5 ∧
    c.startIdx ≤ c.peakIdx ∧
    c.peakIdx < dlen df ∧
    c.peakTemp = tempAt df c.peakIdx ∧
    c.peakTemp = maxOver df c.startIdx (dlen df - 1) ∧
    c.startIdx ≤ c.endIdx ∧
    i2 = c.endIdx + 1 ∧
    (ok = true ↔ (60 ≤ (c.endIdx : ℤ) - (c.startIdx : ℤ) + 1 ∧ (80:ℚ) ≤ c.peakTemp)) ∧
    (ok = true → ∃ f, c.startIdx ≤ f ∧ f ≤ c.endIdx ∧ 70 < tempAt df f) := by
  obtain ⟨cs, ce, cp, cpt⟩ := c
  unfold scanStep at h
  cases hfs : findStart df i with
  | none =>
    rw [hfs] at h
    exact absurd h (by simp)
  | some s =>
    rw [hfs] at h
    injection h with h1 h2 h3
    injection h1 with e1 e2 e3 e4
    obtain ⟨hi5, hsl⟩ := findStart_bounds df hfs
    obtain ⟨hsp, hpl, hpt, hpm⟩ := findPeak_spec df hsl
    obtain ⟨⟨hss1, hss2⟩, hsscase⟩ := searchStart_spec df hsp
    subst e1 e3 e4 h3
    subst e2
    have hsse : searchStart df s (findPeak df s).1 ≤
        (endScan df (findPeak df s).1 (findPeak df s).2
          (searchStart df s (findPeak df s).1)).getD (dlen df - 1) := by
      cases hes : endScan df (findPeak df s).1 (findPeak df s).2
          (searchStart df s (findPeak df s).1) with
      | some e0 =>
        simpa using endScan_ge df hss2 hes
      | none =>
        simp only [Option.getD_none]
        omega
    have hsce : s ≤ (endScan df (findPeak df s).1 (findPeak df s).2
        (searchStart df s (findPeak df s).1)).getD (dlen df - 1) :=
      le_trans hss1 hsse
    refine ⟨hi5, hsp, hpl, hpt, hpm, hsce, rfl, ?_, ?_⟩
    · rw [← h2]
      simp [Bool.and_eq_true, decide_eq_true_eq]
    · intro hok
      have hok2 : (80:ℚ) ≤ (findPeak df s).2 := by
        rw [← h2] at hok
        simp only [Bool.and_eq_true, decide_eq_true_eq] at hok
        exact hok.2
      rcases hsscase with heq | ⟨hlt, h70⟩
      · refine ⟨(findPeak df s).1, hsp, ?_, ?_⟩
        · exact le_of_eq_of_le heq.symm hsse
        · rw [← hpt]
          linarith
      · exact ⟨searchStart df s (findPeak df s).1, hss1, hsse, h70⟩

theorem extractLoop_mem (df : ProbeData) (P : Curve → Prop)
    (hP : ∀ i c i2, scanStep df i = StepResult.next c true i2 → P c) :
    ∀ fuel i l, extractLoop df fuel i = some l → ∀ c, c ∈ l → P c := by
  intro fuel
  induction fuel with
  | zero => intro i l h; simp [extractLoop] at h
  | succ n ih =>
    intro i l h
    rw [extractLoop] at h
    by_cases hi : i < dlen df
    · rw [if_pos hi] at h
      cases hs : scanStep df i with
      | stop =>
        rw [hs] at h
        have hh : some ([] : List Curve) = some l := h
        injection hh with hh
        subst hh
        intro c hc
        simp at hc
      | next c0 ok i2 =>
        rw [hs] at h
        have hh : Option.map (fun rest => if ok = true then c0 :: rest else rest)
            (extractLoop df n i2) = some l := h
        cases hrec : extractLoop df n i2 with
        | none => rw [hrec] at hh; simp at hh
        | some rest =>
          rw [hrec] at hh
          simp only [Option.map_some'] at hh
          injection hh with hh
          subst hh
          intro c hc
          by_cases hok : ok = true
          · subst hok
            rw [if_pos rfl] at hc
            rcases List.mem_cons.mp hc with hceq | hcm
            · subst hceq
              exact hP i c i2 hs
            · exact ih i2 rest hrec c hcm
          · rw [if_neg hok] at hc
            exact ih i2 rest hrec c hc
    · rw [if_neg hi] at h
      injection h with h
      subst h
      intro c hc
      simp at hc

theorem tempAt_mem (df : ProbeData) {p : ℕ} (hp : p < dlen df) :
    tempAt df p ∈ df.core := by
  unfold tempAt
  rw [List.getD_eq_getElem df.core 0 hp]
  exact List.getElem_mem hp

set_option maxHeartbeats 4000000

/-- Claim C1, counterexample: on df126 the first retained curve has
start_index 0, end_index 60, but peak_index 66 > end_index and
peak_temperature 95, while the maximum of the core series over [0, 60] is 90:
the peak scan of _extract_all_baking_curves (loader.py lines 543-546) runs to
the end of the data, not to the end of the curve. -/
theorem claim1_counterexample :
    ∃ l c, extractAll df126 = some l ∧ c ∈ l ∧
      c.endIdx < c.peakIdx ∧ c.peakTemp ≠ maxOver df126 c.startIdx c.endIdx := by
  refine ⟨[⟨0,60,66,95⟩, ⟨65,125,66,95⟩], ⟨0,60,66,95⟩, ?_, ?_, ?_, ?_⟩
  · with_unfolding_all decide
  · simp
  · decide
  · with_unfolding_all decide

/-- Claim C1 (amended): for every retained curve, start_index is at most
peak_index and at most end_index, and peak_temperature equals the maximum of
the core series over [start_index, N-1], N the sample count: the peak is
tracked over the whole remaining series, so peak_index may exceed end_index and
peak_temperature may exceed the maximum over [start_index, end_index]. -/
theorem claim1_amended (df : ProbeData) (fuel i : ℕ) (l : List Curve)
    (h : extractLoop df fuel i = some l) :
    ∀ c ∈ l, c.startIdx ≤ c.peakIdx ∧ c.startIdx ≤ c.endIdx ∧
      c.peakTemp = maxOver df c.startIdx (dlen df - 1) := by
  intro c hc
  refine extractLoop_mem df
    (fun c => c.startIdx ≤ c.peakIdx ∧ c.startIdx ≤ c.endIdx ∧
      c.peakTemp = maxOver df c.startIdx (dlen df - 1)) ?_ fuel i l h c hc
  intro i0 c0 i20 hs
  obtain ⟨_, h2, _, _, h5, h6, _, _, _⟩ := scanStep_spec df hs
  exact ⟨h2, h6, h5⟩

theorem claim1_witness :
    (Curve.mk 0 60 30 92).startIdx ≤ (Curve.mk 0 60 30 92).peakIdx ∧
      (Curve.mk 0 60 30 92).startIdx ≤ (Curve.mk 0 60 30 92).endIdx ∧
      (Curve.mk 0 60 30 92).peakTemp =
        maxOver df127 (Curve.mk 0 60 30 92).startIdx (dlen df127 - 1) :=
  claim1_amended df127 128 0 [Curve.mk 0 60 30 92, Curve.mk 60 126 67 90]
    (by with_unfolding_all decide) (Curve.mk 0 60 30 92) (by simp)

/-- Claim C2, counterexample: on df127 two consecutive retained curves have
end_index 60 and start_index 60: the sustained-rise start rule
(loader.py line 533) backtracks the start 5 samples before the scan cursor, so
retained curves need not be disjoint. -/
theorem claim2_counterexample :
    ∃ c1 c2, extractAll df127 = some [c1, c2] ∧ ¬ c1.endIdx < c2.startIdx :=
  ⟨⟨0,60,30,92⟩, ⟨60,126,67,90⟩, by with_unfolding_all decide, by decide⟩

/-- Claim C2 (amended): after a retained curve the scan cursor resumes at
end_index + 1, and any start the scanner then finds is at index at least
end_index - 4 (the sustained-rise rule may backtrack 5 samples from the scan
position); strict disjointness of consecutive retained curves does not hold. -/
theorem claim2_amended (df : ProbeData) {i : ℕ} {c : Curve} {i2 : ℕ}
    (h : scanStep df i = StepResult.next c true i2) :
    i2 = c.endIdx + 1 ∧ ∀ s2, findStart df i2 = some s2 → c.endIdx ≤ s2 + 4 := by
  obtain ⟨_, _, _, _, _, _, h7, _, _⟩ := scanStep_spec df h
  refine ⟨h7, ?_⟩
  intro s2 hs2
  have hb := (findStart_bounds df hs2).1
  omega

theorem claim2_witness :
    61 = (Curve.mk 0 60 66 95).endIdx + 1 ∧
      ∀ s2, findStart df126 61 = some s2 → (Curve.mk 0 60 66 95).endIdx ≤ s2 + 4 :=
  claim2_amended df126
    (by with_unfolding_all decide :
      scanStep df126 0 = StepResult.next (Curve.mk 0 60 66 95) true 61)

theorem extractLoop_df20_cursor6 : ∀ fuel, extractLoop df20 fuel 6 = none := by
  have hstep : scanStep df20 6 = StepResult.next ⟨5,5,5,44⟩ false 6 := by
    with_unfolding_all decide
  intro fuel
  induction fuel with
  | zero => rfl
  | succ n ih =>
    rw [extractLoop, if_pos (by decide : 6 < dlen df20), hstep]
    show Option.map (fun rest => if false = true then Curve.mk 5 5 5 44 :: rest else rest)
        (extractLoop df20 n 6) = none
    rw [ih]
    rfl

/-- Claim C3: the scan of _extract_all_baking_curves does NOT terminate on
every finite input. On the 20-sample recording df20 the candidate found from
cursor 6 is closed with end_idx = start_idx = 5 (the sustained-rise start at
j = 10 backtracks to 5, and the major-drop backward walk returns to the start),
so i = end_idx + 1 = 6 forever: the fueled loop returns none for every fuel. -/
theorem claim3_nontermination : ∀ fuel, extractLoop df20 fuel 0 = none := by
  have hstep0 : scanStep df20 0 = StepResult.next ⟨5,5,5,44⟩ false 6 := by
    with_unfolding_all decide
  intro fuel
  cases fuel with
  | zero => rfl
  | succ n =>
    rw [extractLoop, if_pos (by decide : 0 < dlen df20), hstep0]
    show Option.map (fun rest => if false = true then Curve.mk 5 5 5 44 :: rest else rest)
        (extractLoop df20 n 6) = none
    rw [extractLoop_df20_cursor6 n]
    rfl

/-- Claim C4: every retained curve has sample count
end_index - start_index + 1 >= MIN_CURVE_DURATION = 60 and peak_temperature
>= MIN_PEAK_TEMP = 80 (loader.py lines 612-614); candidates failing either
test are simply not appended, and the scan continues from end + 1. -/
theorem claim4_thresholds (df : ProbeData) (fuel i : ℕ) (l : List Curve)
    (h : extractLoop df fuel i = some l) :
    ∀ c ∈ l, 60 ≤ (c.endIdx : ℤ) - (c.startIdx : ℤ) + 1 ∧ (80:ℚ) ≤ c.peakTemp := by
  intro c hc
  refine extractLoop_mem df
    (fun c => 60 ≤ (c.endIdx : ℤ) - (c.startIdx : ℤ) + 1 ∧ (80:ℚ) ≤ c.peakTemp)
    ?_ fuel i l h c hc
  intro i0 c0 i20 hs
  obtain ⟨_, _, _, _, _, _, _, h8, _⟩ := scanStep_spec df hs
  exact h8.mp rfl

theorem claim4_witness :
    60 ≤ ((Curve.mk 0 60 66 95).endIdx : ℤ) - ((Curve.mk 0 60 66 95).startIdx : ℤ) + 1 ∧
      (80:ℚ) ≤ (Curve.mk 0 60 66 95).peakTemp :=
  claim4_thresholds df126 127 0 [Curve.mk 0 60 66 95, Curve.mk 65 125 66 95]
    (by with_unfolding_all decide) (Curve.mk 0 60 66 95) (by simp)

/-- Claim C5, counterexample: on df20 the detector closes a candidate curve
with end_idx = 5, which is neither the last sample (19) nor at or after a
sample exceeding the 70 C floor: the curve samples [5, 5] peak at 44 C, yet
end condition 3 still fires (at j = 16) and ends the curve early. The end
search is anchored at the first pre-peak sample above 70 C or at the peak
itself, not gated on the running peak having exceeded the floor. -/
theorem claim5_counterexample :
    ∃ c ok i2, scanStep df20 0 = StepResult.next c ok i2 ∧
      c.endIdx ≠ dlen df20 - 1 ∧
      ∀ f, c.startIdx ≤ f → f ≤ c.endIdx → tempAt df20 f ≤ 70 := by
  refine ⟨⟨5,5,5,44⟩, false, 6, by with_unfolding_all decide, by decide, ?_⟩
  intro f h1 h2
  have h1a : 5 ≤ f := h1
  have h2a : f ≤ 5 := h2
  have hf : f = 5 := by omega
  subst hf
  with_unfolding_all decide

/-- Claim C5 (amended): every RETAINED curve contains a sample whose core
temperature exceeds the 70 C floor within [start_index, end_index], i.e.
end_index is at or after the first floor-exceeding sample: the end search
starts after search_start (loader.py lines 551-556), which either exceeds 70 C
or equals the peak index, and a retained peak is at least 80 C. Discarded
candidates whose temperatures never exceed 70 C can still end before the end
of data. -/
theorem claim5_amended (df : ProbeData) (fuel i : ℕ) (l : List Curve)
    (h : extractLoop df fuel i = some l) :
    ∀ c ∈ l, ∃ f, c.startIdx ≤ f ∧ f ≤ c.endIdx ∧ 70 < tempAt df f := by
  intro c hc
  refine extractLoop_mem df
    (fun c => ∃ f, c.startIdx ≤ f ∧ f ≤ c.endIdx ∧ 70 < tempAt df f)
    ?_ fuel i l h c hc
  intro i0 c0 i20 hs
  obtain ⟨_, _, _, _, _, _, _, _, h9⟩ := scanStep_spec df hs
  exact h9 rfl

theorem claim5_witness :
    ∃ f, (Curve.mk 0 60 30 92).startIdx ≤ f ∧ f ≤ (Curve.mk 0 60 30 92).endIdx ∧
      70 < tempAt df127 f :=
  claim5_amended df127 128 0 [Curve.mk 0 60 30 92, Curve.mk 60 126 67 90]
    (by with_unfolding_all decide) (Curve.mk 0 60 30 92) (by simp)

/-- Claim C6: when the rapid-rise start rule of _extract_all_baking_curves
fires first (no PredictionState column, no earlier Method-2 hit, temperature
rise above 5 C between samples j and j+1 from below 40 C), the recorded
start index is j, the sample at which the rise begins: in the claim
numbering, start = i - 1 for a rise between i-1 and i. -/
theorem claim6_rise_start (df : ProbeData) {i j : ℕ}
    (hps : df.hasPS = false) (hij : i ≤ j) (hlen : j + 1 < dlen df)
    (hfirst : ∀ k, i ≤ k → k < j → startHit df k = false)
    (hrise : riseStart df j = true) :
    findStart df i = some j := by
  unfold findStart
  rw [hps]
  have hs : scanFirst (startHit df) (dlen df - 1 - i) i = some j :=
    scanFirst_first_match hij (by omega) (by simp [startHit, hrise]) hfirst
  simp only [Bool.false_eq_true, if_false]
  rw [hs]
  simp [hrise]

theorem claim6_witness : findStart dfRise 0 = some 0 :=
  claim6_rise_start dfRise rfl (le_refl 0) (by decide)
    (fun k hk1 hk2 => absurd hk2 (by omega)) (by with_unfolding_all decide)

/-- Degenerate-input facts that do hold: an empty recording and a one-sample
recording yield an empty curve list, and whenever the scan terminates on a
recording whose core temperatures never exceed 40 C, the retained list is
empty, since retention requires a peak of at least 80 C and every candidate
peak is an element of the series. Termination itself can fail on such inputs,
see claim C7. -/
theorem extractLoop_le40_empty :
    (∀ df : ProbeData, df.core = [] → extractAll df = some []) ∧
    (∀ (df : ProbeData) (x : ℚ), df.core = [x] → extractAll df = some []) ∧
    (∀ (df : ProbeData) (fuel : ℕ) (l : List Curve),
      (∀ t ∈ df.core, t ≤ 40) → extractLoop df fuel 0 = some l → l = []) := by
  refine ⟨?_, ?_, ?_⟩
  · intro df h
    have hd : dlen df = 0 := by simp [dlen, h]
    rw [extractAll, hd]
    rw [extractLoop, if_neg (by omega)]
  · intro df x h
    have hd : dlen df = 1 := by simp [dlen, h]
    rw [extractAll, hd]
    rw [extractLoop, if_pos (by omega)]
    have hfs : findStart df 0 = none := by
      unfold findStart
      have h0 : dlen df - 1 - 0 = 0 := by omega
      rw [h0]
      cases hps : df.hasPS <;> simp [scanFirst]
    rw [scanStep, hfs]
  · intro df fuel l hle h
    have hmem := extractLoop_mem df
      (fun c => c.peakIdx < dlen df ∧ c.peakTemp = tempAt df c.peakIdx ∧
        (80:ℚ) ≤ c.peakTemp)
      (fun i0 c0 i20 hs => by
        obtain ⟨_, _, h3, h4, _, _, _, h8, _⟩ := scanStep_spec df hs
        exact ⟨h3, h4, (h8.mp rfl).2⟩) fuel 0 l h
    cases l with
    | nil => rfl
    | cons c t =>
      exfalso
      obtain ⟨h3, h4, h5⟩ := hmem c (List.mem_cons_self c t)
      have h6 := hle (tempAt df c.peakIdx) (tempAt_mem df h3)
      rw [← h4] at h6
      linarith

theorem extractLoop_dfLow_cursor6 : ∀ fuel, extractLoop dfLow fuel 6 = none := by
  have hstep : scanStep dfLow 6 = StepResult.next ⟨4,5,4,40⟩ false 6 := by
    with_unfolding_all decide
  intro fuel
  induction fuel with
  | zero => rfl
  | succ n ih =>
    rw [extractLoop, if_pos (by decide : 6 < dlen dfLow), hstep]
    show Option.map (fun rest => if false = true then Curve.mk 4 5 4 40 :: rest else rest)
        (extractLoop dfLow n 6) = none
    rw [ih]
    rfl

/-- Claim C7: empty and one-sample recordings do return an empty curve list,
but a recording that never exceeds 40 C need not: on dfLow, whose core
temperatures all stay at or below 40 C, the scan of
_extract_all_baking_curves never returns (the candidate (4, 5) is discarded
and the cursor comes back to 6 forever), so the fueled embedding yields none
for every fuel instead of an empty list. The claim describes the intended
behavior; the code has the same non-terminating-cursor slip as claim C3. -/
theorem claim7_low_divergence :
    extractAll (ProbeData.mk [] false []) = some [] ∧
    extractAll (ProbeData.mk [25] false []) = some [] ∧
    dfLow.core.all (fun t => decide (t ≤ 40)) = true ∧
    ∀ fuel, extractLoop dfLow fuel 0 = none := by
  refine ⟨by with_unfolding_all decide, by with_unfolding_all decide,
    by with_unfolding_all decide, ?_⟩
  have hstep0 : scanStep dfLow 0 = StepResult.next ⟨4,5,4,40⟩ false 6 := by
    with_unfolding_all decide
  intro fuel
  cases fuel with
  | zero => rfl
  | succ n =>
    rw [extractLoop, if_pos (by decide : 0 < dlen dfLow), hstep0]
    show Option.map (fun rest => if false = true then Curve.mk 4 5 4 40 :: rest else rest)
        (extractLoop dfLow n 6) = none
    rw [extractLoop_dfLow_cursor6 n]
    rfl

/-- Claim C8: timestamp normalization (loader.py line 619) re-bases a curve so
its first timestamp is zero, and it is idempotent: when the first timestamp is
already zero, subtracting it again changes nothing, and for a non-decreasing
already-normalized curve every timestamp stays nonnegative with the first at 0. -/
theorem claim8_normalize :
    (∀ ts : List ℚ, ts ≠ [] → (normalizeTs ts).headD 0 = 0) ∧
    (∀ ts : List ℚ, ts.headD 0 = 0 → normalizeTs ts = ts) ∧
    (∀ ts : List ℚ, List.Chain' (fun a b => a ≤ b) ts → ts.headD 0 = 0 →
      ∀ t ∈ normalizeTs ts, 0 ≤ t) := by
  refine ⟨?_, ?_, ?_⟩
  · intro ts h
    cases ts with
    | nil => simp at h
    | cons a t => simp [normalizeTs]
  · intro ts h
    cases ts with
    | nil => rfl
    | cons a t =>
      simp only [List.headD_cons] at h
      subst h
      simp [normalizeTs]
  · intro ts hch h t ht
    cases ts with
    | nil => simp [normalizeTs] at ht
    | cons a t0 =>
      simp only [List.headD_cons] at h
      subst h
      rcases List.mem_map.mp ht with ⟨u, hu, hut⟩
      simp only [List.headD_cons, sub_zero] at hut
      subst hut
      rcases List.mem_cons.mp hu with rfl | hu0
      · exact le_refl 0
      · exact List.rel_of_pairwise_cons (List.chain'_iff_pairwise.mp hch) hu0

theorem claim8_witness :
    (normalizeTs [0, 3, 7]).headD 0 = 0 ∧ normalizeTs [0, 3, 7] = [0, 3, 7] ∧
      ∀ t ∈ normalizeTs [0, 3, 7], 0 ≤ t :=
  ⟨claim8_normalize.1 [0, 3, 7] (by simp),
   claim8_normalize.2.1 [0, 3, 7] rfl,
   claim8_normalize.2.2 [0, 3, 7]
     (by norm_num [List.chain'_cons, List.chain'_singleton]) rfl⟩

/-- Claim C9: set_current_curve (loader.py lines 674-679) with an index outside
[0, count) changes nothing and returns the unchanged current data, while an
in-range index updates current_curve_index to that index and returns (and
stores) the curve data at it. -/
theorem claim9_select (r : Registry) (idx : ℤ) :
    (¬ (0 ≤ idx ∧ idx < (r.curves.length : ℤ)) →
      setCurrentCurve r idx = (r, r.data)) ∧
    ((0 ≤ idx ∧ idx < (r.curves.length : ℤ)) →
      (setCurrentCurve r idx).1.curves = r.curves ∧
      (setCurrentCurve r idx).1.currentIndex = idx.toNat ∧
      (setCurrentCurve r idx).2 = r.curves.getD idx.toNat [] ∧
      (setCurrentCurve r idx).1.data = r.curves.getD idx.toNat []) := by
  constructor
  · intro h
    simp [setCurrentCurve, h]
  · intro h
    simp [setCurrentCurve, h]

theorem claim9_witness :
    setCurrentCurve regW (-1) = (regW, regW.data) ∧
    setCurrentCurve regW 3 = (regW, regW.data) ∧
    (setCurrentCurve regW 1).1.currentIndex = 1 ∧
    (setCurrentCurve regW 1).2 = [0, 7] :=
  ⟨(claim9_select regW (-1)).1 (by decide),
   (claim9_select regW 3).1 (by decide),
   by rw [((claim9_select regW 1).2 (by decide)).2.1]; rfl,
   by rw [((claim9_select regW 1).2 (by decide)).2.2.1]; rfl⟩

theorem pairwise_ge_getLast {α : Type} {R : α → α → Prop} :
    ∀ (l : List α) (hne : l ≠ []) (hp : List.Pairwise R l) (x : α), x ∈ l →
      x = l.getLast hne ∨ R x (l.getLast hne) := by
  intro l
  induction l with
  | nil => intro hne; exact absurd rfl hne
  | cons a t ih =>
    intro hne hp x hx
    cases t with
    | nil =>
      simp only [List.mem_singleton] at hx
      subst hx
      left
      rfl
    | cons b t2 =>
      have hgl : (a :: b :: t2).getLast hne = (b :: t2).getLast (by simp) :=
        List.getLast_cons (by simp)
      rcases List.mem_cons.mp hx with rfl | hx2
      · right
        rw [hgl]
        exact (List.pairwise_cons.mp hp).1 _ (List.getLast_mem (by simp))
      · rw [hgl]
        exact ih (by simp) (List.pairwise_cons.mp hp).2 x hx2

theorem sortByMax_pairwise (cs : List (List ℚ)) :
    List.Pairwise (fun a b => seriesMax a ≤ seriesMax b) (sortByMax cs) := by
  have h := @List.sorted_mergeSort (List ℚ) (fun a b => decide (seriesMax a ≤ seriesMax b))
    (fun a b c hab hbc => by
      simp only [decide_eq_true_eq] at hab hbc ⊢
      exact le_trans hab hbc)
    (fun a b => by
      simp only [Bool.or_eq_true, decide_eq_true_eq]
      exact le_total (seriesMax a) (seriesMax b)) cs
  exact h.imp (fun hab => by simpa using hab)

/-- Claim C10: in the fallback role-resolution path with at least 3 channels,
after sorting by maximum observed temperature ascending the two lowest-max
channels are assigned core, the two highest-max ambient; in particular some
channel of minimal observed maximum is core and some channel of maximal
observed maximum is ambient, and the emitted series average the groups. -/
theorem claim10_fallback (cs : List (List ℚ)) (ra : RoleAssignment)
    (h : classifySensors cs = some ra) :
    ra.core = (sortByMax cs).take 2 ∧
    ra.ambient = (sortByMax cs).drop (cs.length - 2) ∧
    (∀ c ∈ ra.core, ∀ d ∈ (sortByMax cs).drop 2, seriesMax c ≤ seriesMax d) ∧
    (∀ a ∈ ra.ambient, ∀ b ∈ (sortByMax cs).take (cs.length - 2),
      seriesMax b ≤ seriesMax a) ∧
    (∃ c ∈ ra.core, ∀ ch ∈ cs, seriesMax c ≤ seriesMax ch) ∧
    (∃ a ∈ ra.ambient, ∀ ch ∈ cs, seriesMax ch ≤ seriesMax a) := by
  unfold classifySensors at h
  by_cases h3 : 3 ≤ cs.length
  case neg => rw [if_neg h3] at h; cases h
  rw [if_pos h3] at h
  injection h with h
  subst h
  have hpw : List.Pairwise (fun a b => seriesMax a ≤ seriesMax b) (sortByMax cs) :=
    sortByMax_pairwise cs
  have hperm : (sortByMax cs).Perm cs := List.mergeSort_perm cs _
  have hlen : (sortByMax cs).length = cs.length := hperm.length_eq
  refine ⟨rfl, rfl, ?_, ?_, ?_, ?_⟩
  · intro c hc d hd
    have hap : List.Pairwise (fun a b => seriesMax a ≤ seriesMax b)
        ((sortByMax cs).take 2 ++ (sortByMax cs).drop 2) := by
      rw [List.take_append_drop]
      exact hpw
    exact (List.pairwise_append.mp hap).2.2 c hc d hd
  · intro a ha b hb
    have hap : List.Pairwise (fun a b => seriesMax a ≤ seriesMax b)
        ((sortByMax cs).take (cs.length - 2) ++ (sortByMax cs).drop (cs.length - 2)) := by
      rw [List.take_append_drop]
      exact hpw
    exact (List.pairwise_append.mp hap).2.2 b hb a ha
  · cases hLc : sortByMax cs with
    | nil =>
      exfalso
      rw [hLc] at hlen
      simp at hlen
      omega
    | cons x t =>
      refine ⟨x, ?_, ?_⟩
      · show x ∈ List.take 2 (x :: t)
        simp
      · intro ch hch
        have hch2 : ch ∈ sortByMax cs := hperm.mem_iff.mpr hch
        rw [hLc] at hch2 hpw
        rcases List.mem_cons.mp hch2 with rfl | hm
        · exact le_refl _
        · exact (List.pairwise_cons.mp hpw).1 ch hm
  · have hDne : (sortByMax cs).drop (cs.length - 2) ≠ [] := by
      apply List.ne_nil_of_length_pos
      rw [List.length_drop, hlen]
      omega
    have hpD : List.Pairwise (fun a b => seriesMax a ≤ seriesMax b)
        ((sortByMax cs).drop (cs.length - 2)) :=
      hpw.sublist (List.drop_sublist _ _)
    refine ⟨((sortByMax cs).drop (cs.length - 2)).getLast hDne,
      List.getLast_mem hDne, ?_⟩
    intro ch hch
    have hch2 : ch ∈ sortByMax cs := hperm.mem_iff.mpr hch
    have hsplit : ch ∈ (sortByMax cs).take (cs.length - 2) ++
        (sortByMax cs).drop (cs.length - 2) := by
      rw [List.take_append_drop]
      exact hch2
    have hap : List.Pairwise (fun a b => seriesMax a ≤ seriesMax b)
        ((sortByMax cs).take (cs.length - 2) ++ (sortByMax cs).drop (cs.length - 2)) := by
      rw [List.take_append_drop]
      exact hpw
    rcases List.mem_append.mp hsplit with hin | hin
    · exact (List.pairwise_append.mp hap).2.2 ch hin _ (List.getLast_mem hDne)
    · rcases pairwise_ge_getLast _ hDne hpD ch hin with heq | hle2
      · rw [heq]
      · exact hle2

theorem claim10_witness :
    (RoleAssignment.mk [[(60:ℚ)],[70]] [[80],[90]] [[80],[90]]).core =
      (sortByMax [[(90:ℚ)],[70],[80],[60]]).take 2 ∧
    (RoleAssignment.mk [[(60:ℚ)],[70]] [[80],[90]] [[80],[90]]).ambient =
      (sortByMax [[(90:ℚ)],[70],[80],[60]]).drop
        (([[(90:ℚ)],[70],[80],[60]] : List (List ℚ)).length - 2) ∧
    (∀ c ∈ (RoleAssignment.mk [[(60:ℚ)],[70]] [[80],[90]] [[80],[90]]).core,
      ∀ d ∈ (sortByMax [[(90:ℚ)],[70],[80],[60]]).drop 2,
        seriesMax c ≤ seriesMax d) ∧
    (∀ a ∈ (RoleAssignment.mk [[(60:ℚ)],[70]] [[80],[90]] [[80],[90]]).ambient,
      ∀ b ∈ (sortByMax [[(90:ℚ)],[70],[80],[60]]).take
        (([[(90:ℚ)],[70],[80],[60]] : List (List ℚ)).length - 2),
        seriesMax b ≤ seriesMax a) ∧
    (∃ c ∈ (RoleAssignment.mk [[(60:ℚ)],[70]] [[80],[90]] [[80],[90]]).core,
      ∀ ch ∈ ([[(90:ℚ)],[70],[80],[60]] : List (List ℚ)),
        seriesMax c ≤ seriesMax ch) ∧
    (∃ a ∈ (RoleAssignment.mk [[(60:ℚ)],[70]] [[80],[90]] [[80],[90]]).ambient,
      ∀ ch ∈ ([[(90:ℚ)],[70],[80],[60]] : List (List ℚ)),
        seriesMax ch ≤ seriesMax a) :=
  claim10_fallback [[(90:ℚ)],[70],[80],[60]]
    (RoleAssignment.mk [[(60:ℚ)],[70]] [[80],[90]] [[80],[90]])
    (by with_unfolding_all decide)
